import Mathlib

set_option maxRecDepth 100000

/-!
Verification of the request-gating middleware of the fm-backend repository
(src/middleware.ts) and of the compliance API helpers
(src/app/utils/complianceApi.ts), as a shallow embedding in Lean.

JavaScript machinery the source relies on (JSON.parse, truthiness,
property access, String.prototype.includes and toLowerCase,
URLSearchParams serialization) is embedded executably below; machine
strings are Lean strings, JS exceptions are the error side of Except.
-/

/-- JSON values as produced by a successful JSON.parse. Numbers keep their
lexed token so that nothing about their value is lost. Objects keep their
field list; duplicate keys are resolved last-wins at access time, which
agrees with JSON.parse collapsing duplicates last-wins. -/
inductive Json where
  | null : Json
  | bool : Bool → Json
  | num : String → Json
  | str : String → Json
  | arr : List Json → Json
  | obj : List (String × Json) → Json

/-- Does the first list occur at the beginning of the second? -/
def listStarts : List Char → List Char → Bool
  | [], _ => true
  | _ :: _, [] => false
  | p :: ps, c :: cs => p == c && listStarts ps cs

/-- Does the first list occur contiguously anywhere in the second? -/
def listContains (pat : List Char) : List Char → Bool
  | [] => listStarts pat []
  | c :: cs => listStarts pat (c :: cs) || listContains pat cs

/-- JS String.prototype.includes: does pat occur in s? -/
def strContains (s pat : String) : Bool := listContains pat.toList s.toList

/-- JS String.prototype.startsWith. -/
def startsWithStr (s pre : String) : Bool := listStarts pre.toList s.toList

/-- JS String.prototype.toLowerCase (ASCII range, which covers every string
the middleware compares). -/
def strToLower (s : String) : String := String.mk (s.toList.map Char.toLower)

/-- Longest digit run at the front, used both by the number lexer and by
the numeric-value reader. -/
def takeDigits : List Char → List Char × List Char
  | [] => ([], [])
  | c :: cs =>
    if c.isDigit then
      match takeDigits cs with
      | (ds, r) => (c :: ds, r)
    else ([], c :: cs)

/-- Value of a digit run. -/
def digitsToNat (ds : List Char) : Nat :=
  ds.foldl (fun acc c => acc * 10 + (c.toNat - 48)) 0

/-- Mantissa and decimal exponent of a JSON numeric token: the token
denotes sign times m times 10 to the E. The sign is irrelevant to
zero-ness (negative zero is falsy too). -/
def numParts (cs0 : List Char) : Nat × Int :=
  let cs := match cs0 with
    | '-' :: t => t
    | _ => cs0
  let ipr := takeDigits cs
  let fr : List Char × List Char :=
    match ipr.2 with
    | '.' :: t => takeDigits t
    | r => ([], r)
  let m := digitsToNat (ipr.1 ++ fr.1)
  let exp10 : Int :=
    match fr.2 with
    | c :: t =>
      if c == 'e' || c == 'E' then
        match t with
        | '-' :: t2 => - Int.ofNat (digitsToNat (takeDigits t2).1)
        | '+' :: t2 => Int.ofNat (digitsToNat (takeDigits t2).1)
        | t2 => Int.ofNat (digitsToNat (takeDigits t2).1)
      else 0
    | [] => 0
  (m, exp10 - Int.ofNat fr.1.length)

/-- A JSON numeric token converts to the IEEE-754 double zero. JSON.parse
first converts the token to a double by round-to-nearest, ties-to-even, so
besides tokens whose mantissa digits are all 0 this covers underflow: a
positive value rounds to zero exactly when it is at most half the smallest
subnormal, that is m times 10 to the E at most 2 to the -1075 (the
boundary itself ties to the even candidate, which is zero). With m nonzero
and E at least 0 the value is at least 1, hence nonzero. -/
def numIsZero (raw : String) : Bool :=
  let p := numParts raw.toList
  if p.1 == 0 then true
  else
    match p.2 with
    | Int.ofNat _ => false
    | Int.negSucc k => Nat.ble (p.1 * 2 ^ 1075) (10 ^ (k + 1))

/-- JS truthiness of a parsed JSON value: null, false, 0 and the empty string
are falsy; every other value, including every object and array, is truthy. -/
def jsTruthy : Json → Bool
  | Json.null => false
  | Json.bool b => b
  | Json.num raw => !(numIsZero raw)
  | Json.str s => !(s.isEmpty)
  | Json.arr _ => true
  | Json.obj _ => true

/-- Last binding of a key in an object field list (JSON.parse keeps the last
of duplicate keys). -/
def fieldsGetLast : List (String × Json) → String → Option Json
  | [], _ => none
  | kv :: rest, k =>
    match fieldsGetLast rest k with
    | some v => some v
    | none => if kv.1 == k then some kv.2 else none

/-- JS property access on a parsed JSON value: on objects it is field lookup,
on every non-object (non-null) value it yields undefined, modelled none. -/
def jsGetField : Json → String → Option Json
  | Json.obj fields, k => fieldsGetLast fields k
  | _, _ => none

/-- Value of a hexadecimal digit. -/
def hexVal (c : Char) : Option Nat :=
  if c.isDigit then some (c.toNat - 48)
  else if 'a' ≤ c && c ≤ 'f' then some (c.toNat - 87)
  else if 'A' ≤ c && c ≤ 'F' then some (c.toNat - 55)
  else none

/-- JSON whitespace: space, tab, line feed, carriage return. -/
def isJsonWs (c : Char) : Bool := c == ' ' || c == '\t' || c == '\x0a' || c == '\x0d'

def skipWs : List Char → List Char
  | [] => []
  | c :: cs => if isJsonWs c then skipWs cs else c :: cs

/-- Reads a low-surrogate escape, used to pair surrogates in string
literals. -/
def lowSurrogateAfter : List Char → Option (Nat × List Char)
  | '\\' :: 'u' :: a :: b :: c :: d :: rest =>
    match hexVal a, hexVal b, hexVal c, hexVal d with
    | some x, some y, some z, some w =>
      let m := ((x * 16 + y) * 16 + z) * 16 + w
      if 56320 ≤ m && m ≤ 57343 then some (m, rest) else none
    | _, _, _, _ => none
  | _ => none

/-- Body of a JSON string literal, after the opening quote. Escapes follow
ECMA-404; surrogate escape pairs are combined, a lone surrogate becomes
U+FFFD (Lean strings hold scalar values only). -/
def parseStrBody : Nat → List Char → List Char → Option (String × List Char)
  | 0, _, _ => none
  | _ + 1, _, [] => none
  | fuel + 1, acc, c :: rest =>
    if c == '"' then some (String.mk acc.reverse, rest)
    else if c == '\\' then
      match rest with
      | [] => none
      | e :: rest2 =>
        if e == '"' then parseStrBody fuel ('"' :: acc) rest2
        else if e == '\\' then parseStrBody fuel ('\\' :: acc) rest2
        else if e == '/' then parseStrBody fuel ('/' :: acc) rest2
        else if e == 'b' then parseStrBody fuel ('\x08' :: acc) rest2
        else if e == 'f' then parseStrBody fuel ('\x0c' :: acc) rest2
        else if e == 'n' then parseStrBody fuel ('\x0a' :: acc) rest2
        else if e == 'r' then parseStrBody fuel ('\x0d' :: acc) rest2
        else if e == 't' then parseStrBody fuel ('\t' :: acc) rest2
        else if e == 'u' then
          match rest2 with
          | a :: b :: c2 :: d :: rest3 =>
            match hexVal a, hexVal b, hexVal c2, hexVal d with
            | some x, some y, some z, some w =>
              let n := ((x * 16 + y) * 16 + z) * 16 + w
              if 55296 ≤ n && n ≤ 56319 then
                match lowSurrogateAfter rest3 with
                | some (m, rest4) =>
                  parseStrBody fuel
                    (Char.ofNat (65536 + (n - 55296) * 1024 + (m - 56320)) :: acc) rest4
                | none => parseStrBody fuel ('�' :: acc) rest3
              else if 56320 ≤ n && n ≤ 57343 then
                parseStrBody fuel ('�' :: acc) rest3
              else
                parseStrBody fuel (Char.ofNat n :: acc) rest3
            | _, _, _, _ => none
          | _ => none
        else none
    else if c.toNat < 32 then none
    else parseStrBody fuel (c :: acc) rest

/-- Integer part of a JSON number: a single 0, or a nonzero digit followed by
digits. -/
def lexIntPart : List Char → Option (List Char × List Char)
  | [] => none
  | c :: cs =>
    if c == '0' then some ([c], cs)
    else if c.isDigit then
      match takeDigits cs with
      | (ds, r) => some (c :: ds, r)
    else none

/-- Optional fraction part: a dot followed by at least one digit. -/
def lexFracPart : List Char → Option (List Char × List Char)
  | '.' :: t =>
    match takeDigits t with
    | ([], _) => none
    | (ds, r) => some ('.' :: ds, r)
  | cs => some ([], cs)

/-- Optional exponent part: e or E, optional sign, at least one digit. -/
def lexExpPart : List Char → Option (List Char × List Char)
  | [] => some ([], [])
  | c :: t =>
    if c == 'e' || c == 'E' then
      match t with
      | s :: t2 =>
        if s == '+' || s == '-' then
          match takeDigits t2 with
          | ([], _) => none
          | (ds, r) => some (c :: s :: ds, r)
        else
          match takeDigits t with
          | ([], _) => none
          | (ds, r) => some (c :: ds, r)
      | [] => none
    else some ([], c :: t)

/-- Lex one JSON numeric token. -/
def lexNumber (cs : List Char) : Option (String × List Char) :=
  let sl : List Char × List Char :=
    match cs with
    | '-' :: t => (['-'], t)
    | _ => ([], cs)
  match lexIntPart sl.2 with
  | none => none
  | some (ip, r1) =>
    match lexFracPart r1 with
    | none => none
    | some (fp, r2) =>
      match lexExpPart r2 with
      | none => none
      | some (ep, r3) => some (String.mk (sl.1 ++ ip ++ fp ++ ep), r3)

mutual

/-- One JSON value, fuelled; the fuel only bounds nesting of the mutual
calls and is chosen generously at the top. -/
def parseVal : Nat → List Char → Option (Json × List Char)
  | 0, _ => none
  | fuel + 1, cs =>
    match skipWs cs with
    | [] => none
    | c :: rest =>
      if c == '\x7b' then parseObjStart fuel rest
      else if c == '[' then parseArrStart fuel rest
      else if c == '"' then
        match parseStrBody (rest.length + 1) [] rest with
        | some (s, r) => some (Json.str s, r)
        | none => none
      else if c == 't' then
        match rest with
        | 'r' :: 'u' :: 'e' :: r => some (Json.bool true, r)
        | _ => none
      else if c == 'f' then
        match rest with
        | 'a' :: 'l' :: 's' :: 'e' :: r => some (Json.bool false, r)
        | _ => none
      else if c == 'n' then
        match rest with
        | 'u' :: 'l' :: 'l' :: r => some (Json.null, r)
        | _ => none
      else
        match lexNumber (c :: rest) with
        | some (tok, r) => some (Json.num tok, r)
        | none => none

/-- After an opening brace: the empty object or a member list. -/
def parseObjStart : Nat → List Char → Option (Json × List Char)
  | 0, _ => none
  | fuel + 1, cs =>
    match skipWs cs with
    | '\x7d' :: r => some (Json.obj [], r)
    | cs2 => parseMembers fuel cs2 []

/-- Object members: string key, colon, value, then a comma or the closing
brace. -/
def parseMembers : Nat → List Char → List (String × Json) → Option (Json × List Char)
  | 0, _, _ => none
  | fuel + 1, cs, acc =>
    match skipWs cs with
    | '"' :: r =>
      match parseStrBody (r.length + 1) [] r with
      | none => none
      | some (key, r2) =>
        match skipWs r2 with
        | ':' :: r3 =>
          match parseVal fuel r3 with
          | none => none
          | some (v, r4) =>
            match skipWs r4 with
            | ',' :: r5 => parseMembers fuel r5 (acc ++ [(key, v)])
            | '\x7d' :: r5 => some (Json.obj (acc ++ [(key, v)]), r5)
            | _ => none
        | _ => none
    | _ => none

/-- After an opening bracket: the empty array or an element list. -/
def parseArrStart : Nat → List Char → Option (Json × List Char)
  | 0, _ => none
  | fuel + 1, cs =>
    match skipWs cs with
    | ']' :: r => some (Json.arr [], r)
    | cs2 => parseElems fuel cs2 []

/-- Array elements separated by commas. -/
def parseElems : Nat → List Char → List Json → Option (Json × List Char)
  | 0, _, _ => none
  | fuel + 1, cs, acc =>
    match parseVal fuel cs with
    | none => none
    | some (v, r) =>
      match skipWs r with
      | ',' :: r2 => parseElems fuel r2 (acc ++ [v])
      | ']' :: r2 => some (Json.arr (acc ++ [v]), r2)
      | _ => none

end

/-- JSON.parse: one value with surrounding whitespace, nothing after it.
On any syntax error the result is none. -/
def parseJson (s : String) : Option Json :=
  let cs := s.toList
  match parseVal (4 * cs.length + 16) cs with
  | some (v, rest) => if (skipWs rest).isEmpty then some v else none
  | none => none

/-- Deployment configuration: process.env.NODE_ENV as seen by the
middleware. -/
structure Env where
  nodeEnv : String

/-- An incoming HTTP request as the middleware observes it: nextUrl fields
(scheme, host, pathname, search with its leading question mark when
non-empty), the method, the cookie bag, the remaining request headers and
the client address. -/
structure Request where
  scheme : String
  host : String
  pathname : String
  search : String
  method : String
  cookies : List (String × String)
  extraHeaders : List (String × String)
  ip : Option String

/-- Cookie lookup; for a repeated name the last value wins, matching the
cookie map the framework builds from the Cookie header. -/
def cookiesGetLast : List (String × String) → String → Option String
  | [], _ => none
  | kv :: rest, k =>
    match cookiesGetLast rest k with
    | some v => some v
    | none => if kv.1 == k then some kv.2 else none

def cookieGet (r : Request) (name : String) : Option String :=
  cookiesGetLast r.cookies name

/-- src/middleware.ts getUserFromRequest: read the user cookie and
JSON.parse its value; a missing cookie or a parse failure (the catch
branch) both yield null, modelled none. -/
def getUserFromRequest (r : Request) : Option Json :=
  match cookieGet r "user" with
  | some v => parseJson v
  | none => none

/-- src/middleware.ts publicPaths. -/
def publicPaths : List String :=
  ["/login", "/forgot-password", "/reset-password", "/training", "/_next",
   "/favicon.ico", "/api/users/auth/login", "/api/users/auth/refresh"]

/-- src/middleware.ts isPublicPath: startsWith any public prefix. -/
def isPublicPath (pathname : String) : Bool :=
  publicPaths.any (fun p => startsWithStr pathname p)

/-- src/middleware.ts adminPaths. -/
def adminPaths : List String := ["/admin", "/users", "/user-management"]

/-- src/middleware.ts requiresAdminAccess: startsWith any admin prefix. -/
def requiresAdminAccess (pathname : String) : Bool :=
  adminPaths.any (fun p => startsWithStr pathname p)

/-- The path classes of the specification data model. -/
inductive PathClass where
  | Public : PathClass
  | AdminProtected : PathClass
  | OrdinaryProtected : PathClass
deriving DecidableEq

/-- The specification path classifier, assembled from the two source
predicates exactly as section 4.1 of the spec describes them. -/
def classify (p : String) : PathClass :=
  if isPublicPath p then PathClass.Public
  else if requiresAdminAccess p then PathClass.AdminProtected
  else PathClass.OrdinaryProtected

/-- Header names compare case-insensitively. -/
def headerNameEq (a b : String) : Bool := strToLower a == strToLower b

/-- Headers.set: replace the value of an existing name or append. -/
def headersSet (hs : List (String × String)) (k v : String) : List (String × String) :=
  if hs.any (fun p => headerNameEq p.1 k) then
    hs.map (fun p => if headerNameEq p.1 k then (p.1, v) else p)
  else hs ++ [(k, v)]

/-- The four response.headers.set calls of src/middleware.ts, applied in
source order to the fresh baseline response. -/
def securityHeaders : List (String × String) :=
  headersSet (headersSet (headersSet (headersSet []
    "X-Frame-Options" "DENY")
    "X-Content-Type-Options" "nosniff")
    "Referrer-Policy" "strict-origin-when-cross-origin")
    "X-XSS-Protection" "1; mode=block"

/-- Uppercase hexadecimal digit. -/
def hexDigitUpper (n : Nat) : Char :=
  if n < 10 then Char.ofNat (48 + n) else Char.ofNat (55 + n)

/-- UTF-8 bytes of a scalar value. -/
def utf8Bytes (c : Char) : List Nat :=
  let n := c.toNat
  if n < 128 then [n]
  else if n < 2048 then [192 + n / 64, 128 + n % 64]
  else if n < 65536 then [224 + n / 4096, 128 + (n / 64) % 64, 128 + n % 64]
  else [240 + n / 262144, 128 + (n / 4096) % 64, 128 + (n / 64) % 64, 128 + n % 64]

def pctByte (b : Nat) : List Char := ['%', hexDigitUpper (b / 16), hexDigitUpper (b % 16)]

/-- Characters URLSearchParams serializes unescaped. -/
def formUnreserved (c : Char) : Bool :=
  c.isAlphanum || c == '*' || c == '-' || c == '.' || c == '_'

def formEncodeChar (c : Char) : List Char :=
  if c == ' ' then ['+']
  else if formUnreserved c then [c]
  else (utf8Bytes c).foldr (fun b acc => pctByte b ++ acc) []

/-- URLSearchParams percent-encoding, used when searchParams.set writes the
redirect parameter of the login URL. -/
def formEncode (s : String) : String :=
  String.mk (s.toList.foldr (fun c acc => formEncodeChar c ++ acc) [])

/-- The terminal outcomes of the gate, one constructor per return site of
src/middleware.ts; each carries the response headers of that return site,
and redirects carry their target URL. -/
inductive GateDecision where
  | Allow : List (String × String) → GateDecision
  | AllowWithHeaders : List (String × String) → GateDecision
  | RedirectLogin : String → List (String × String) → GateDecision
  | RedirectDefault : String → List (String × String) → GateDecision
  | RedirectHttps : String → List (String × String) → GateDecision
deriving DecidableEq

/-- src/middleware.ts adminRoles. -/
def adminRoles : List String := ["system admin", "administrator", "admin"]

/-- The admin membership test applied to a string role: some admin role is a
case-insensitive substring of it. -/
def roleHasAdminAccess (role : String) : Bool :=
  adminRoles.any (fun a => strContains (strToLower role) (strToLower a))

/-- scheme://host of the request URL, the base new URL(path, request.url)
keeps. -/
def requestOrigin (r : Request) : String := r.scheme ++ "://" ++ r.host

/-- Serialization of the login URL with its redirect search parameter. -/
def loginRedirectUrl (r : Request) : String :=
  requestOrigin r ++ "/login?redirect=" ++ formEncode r.pathname

/-- Serialization of new URL of /dashboard against the request URL. -/
def dashboardUrl (r : Request) : String := requestOrigin r ++ "/dashboard"

/-- src/middleware.ts middleware, line for line: public pass-through; a
baseline response carrying the four security headers (the source binds it
to a local named response before the HTTPS check; it is referenced here as
securityHeaders at the two return sites that forward it, which is the same
response since nothing mutates it in between); the production HTTPS
redirect; the unauthenticated login redirect; the admin role gate. The
role test user.role?.toLowerCase().includes(...) throws a TypeError when
the role field holds a non-null, non-undefined, non-string value, modelled
as the error side of Except. -/
def middleware (env : Env) (r : Request) : Except String GateDecision :=
  if isPublicPath r.pathname then
    Except.ok (GateDecision.Allow [])
  else
    if env.nodeEnv == "production" && !(strContains (r.scheme ++ ":") "https") then
      Except.ok (GateDecision.RedirectHttps
        ("https://" ++ r.host ++ r.pathname ++ r.search) [])
    else
      match getUserFromRequest r with
      | none => Except.ok (GateDecision.RedirectLogin (loginRedirectUrl r) [])
      | some user =>
        if !(jsTruthy user) then
          Except.ok (GateDecision.RedirectLogin (loginRedirectUrl r) [])
        else if requiresAdminAccess r.pathname then
          match jsGetField user "role" with
          | some (Json.str s) =>
            if roleHasAdminAccess s then
              Except.ok (GateDecision.AllowWithHeaders securityHeaders)
            else Except.ok (GateDecision.RedirectDefault (dashboardUrl r) [])
          | some Json.null => Except.ok (GateDecision.RedirectDefault (dashboardUrl r) [])
          | none => Except.ok (GateDecision.RedirectDefault (dashboardUrl r) [])
          | some _ => Except.error "TypeError: user.role?.toLowerCase is not a function"
        else Except.ok (GateDecision.AllowWithHeaders securityHeaders)

/-- Headers carried by a decision. -/
def decisionHeaders : GateDecision → List (String × String)
  | GateDecision.Allow hs => hs
  | GateDecision.AllowWithHeaders hs => hs
  | GateDecision.RedirectLogin _ hs => hs
  | GateDecision.RedirectDefault _ hs => hs
  | GateDecision.RedirectHttps _ hs => hs

def isAllowWithHeadersD : GateDecision → Bool
  | GateDecision.AllowWithHeaders _ => true
  | _ => false

def isRedirectHttpsD : GateDecision → Bool
  | GateDecision.RedirectHttps _ _ => true
  | _ => false

def isRedirectLoginD : GateDecision → Bool
  | GateDecision.RedirectLogin _ _ => true
  | _ => false

/-- The role field values the admin gate evaluates without throwing:
undefined, null, or a string. -/
def roleFieldOk : Option Json → Bool
  | none => true
  | some Json.null => true
  | some (Json.str _) => true
  | some _ => false

/-- Does the principal pass the admin gate: its role is a string containing
some admin role case-insensitively. -/
def principalRoleMatches (j : Json) : Bool :=
  match jsGetField j "role" with
  | some (Json.str s) => roleHasAdminAccess s
  | _ => false

/-- The same request with every user cookie removed. -/
def removeUserCookie (r : Request) : Request :=
  Request.mk r.scheme r.host r.pathname r.search r.method
    (r.cookies.filter (fun c => !(c.1 == "user"))) r.extraHeaders r.ip

/-- A request the compliance API helpers hand to fetch. -/
structure UpstreamRequest where
  url : String
  method : String
  reqHeaders : List (String × String)
  body : Option String

/-- A fetch response: its HTTP status and the JSON payload res.json()
yields (the upstream collaborator answers JSON by contract). -/
structure UpstreamResponse where
  status : Nat
  payload : Json

/-- Response.ok of fetch: status in the range 200 to 299. -/
def responseOk (res : UpstreamResponse) : Bool :=
  Nat.ble 200 res.status && Nat.ble res.status 299

/-- Lowercase hexadecimal digit. -/
def hexDigitLower (n : Nat) : Char :=
  if n < 10 then Char.ofNat (48 + n) else Char.ofNat (87 + n)

/-- JSON.stringify escaping of a string character. -/
def jsonEscapeChar (c : Char) : List Char :=
  if c == '"' then ['\\', '"']
  else if c == '\\' then ['\\', '\\']
  else if c == '\x08' then ['\\', 'b']
  else if c == '\x0c' then ['\\', 'f']
  else if c == '\x0a' then ['\\', 'n']
  else if c == '\x0d' then ['\\', 'r']
  else if c == '\t' then ['\\', 't']
  else if c.toNat < 32 then
    ['\\', 'u', '0', '0', hexDigitLower (c.toNat / 16), hexDigitLower (c.toNat % 16)]
  else [c]

/-- JSON.stringify of a string value. -/
def jsonQuote (s : String) : String :=
  String.mk ('"' :: s.toList.foldr (fun c acc => jsonEscapeChar c ++ acc) ['"'])

/-- JSON.stringify of the acknowledge-task body object. -/
def ackBody (hotelId taskId : String) : String :=
  "\x7b\"hotel_id\":" ++ jsonQuote hotelId ++ ",\"task_id\":" ++ jsonQuote taskId ++ "\x7d"

/-- The GET request fetchDueTasks issues. -/
def dueTasksRequest (apiUrl hotelId : String) : UpstreamRequest :=
  UpstreamRequest.mk (apiUrl ++ "/api/compliance/due-tasks/" ++ hotelId) "GET" [] none

/-- The POST request acknowledgeNextMonthTask issues. -/
def ackTaskRequest (apiUrl hotelId taskId : String) : UpstreamRequest :=
  UpstreamRequest.mk (apiUrl ++ "/api/compliance/acknowledge-task") "POST"
    [("Content-Type", "application/json")] (some (ackBody hotelId taskId))

/-- src/app/utils/complianceApi.ts fetchDueTasks, parameterized by the
upstream collaborator and the configured base URL. -/
def fetchDueTasks (upstream : UpstreamRequest → UpstreamResponse)
    (apiUrl hotelId : String) : Except String Json :=
  let res := upstream (dueTasksRequest apiUrl hotelId)
  if !(responseOk res) then Except.error "Failed to fetch due tasks"
  else Except.ok res.payload

/-- src/app/utils/complianceApi.ts acknowledgeNextMonthTask. -/
def acknowledgeNextMonthTask (upstream : UpstreamRequest → UpstreamResponse)
    (apiUrl hotelId taskId : String) : Except String Json :=
  let res := upstream (ackTaskRequest apiUrl hotelId taskId)
  if !(responseOk res) then Except.error "Failed to acknowledge task"
  else Except.ok res.payload

/-! Concrete fixture values used by witnesses and counterexamples. -/

def devEnv : Env := Env.mk "development"

def prodEnv : Env := Env.mk "production"

/-- Admin-protected path, credential with role Admin, plaintext scheme. -/
def reqAdminHttp : Request :=
  Request.mk "http" "app.example.com" "/admin/settings" "" "GET"
    [("user", "\x7b\"role\":\"Admin\"\x7d")] [] none

/-- Admin-protected path, credential with role Admin, https scheme. -/
def reqAdminOk : Request :=
  Request.mk "https" "app.example.com" "/admin/settings" "" "GET"
    [("user", "\x7b\"role\":\"Admin\"\x7d")] [] none

/-- Admin-protected path /users, credential with role staff. -/
def reqUsersStaff : Request :=
  Request.mk "https" "app.example.com" "/users" "" "GET"
    [("user", "\x7b\"role\":\"staff\"\x7d")] [] none

/-- Admin-protected path, credential whose role field is the number 0. -/
def reqRoleNum : Request :=
  Request.mk "https" "app.example.com" "/admin/settings" "" "GET"
    [("user", "\x7b\"role\":0\x7d")] [] none

/-- Ordinary-protected path with an authenticated staff credential. -/
def reqDashboardStaff : Request :=
  Request.mk "https" "app.example.com" "/dashboard" "" "GET"
    [("user", "\x7b\"role\":\"staff\"\x7d")] [] none

/-- Public path over plaintext http, no credential. -/
def reqPublicHttp : Request :=
  Request.mk "http" "app.example.com" "/login" "" "GET" [] [] none

/-- Non-public path /users/42, no credential, plaintext http. -/
def reqUsers42Http : Request :=
  Request.mk "http" "app.example.com" "/users/42" "" "GET" [] [] none

/-- Non-public path, credential that is the JSON text null, plaintext. -/
def reqNullCredHttp : Request :=
  Request.mk "http" "app.example.com" "/dashboard" "" "GET" [("user", "null")] [] none

/-- Upstream collaborator stub answering 200 with null payload. -/
def up200 : UpstreamRequest → UpstreamResponse := fun _ => UpstreamResponse.mk 200 Json.null

/-- Upstream collaborator stub answering 500 with null payload. -/
def up500 : UpstreamRequest → UpstreamResponse := fun _ => UpstreamResponse.mk 500 Json.null

/-! Helper lemmas shared by the claim theorems. -/

/-- Filtering out the user cookies makes the user cookie lookup fail. -/
theorem cookiesGetLast_filter_user (cs : List (String × String)) :
    cookiesGetLast (cs.filter (fun c => !(c.1 == "user"))) "user" = none := by
  induction cs with
  | nil => rfl
  | cons kv t ih =>
    by_cases h : kv.1 == "user"
    · simp [List.filter_cons, h, ih]
    · simp [List.filter_cons, h, cookiesGetLast, ih]

/-- The middleware of a request whose user lookup yields no identity, on a
non-public path with the HTTPS guard off, is the login redirect. -/
theorem mw_login_of_none (env : Env) (r : Request)
    (hpub : isPublicPath r.pathname = false)
    (hguard : (env.nodeEnv == "production" && !(strContains (r.scheme ++ ":") "https")) = false)
    (hu : getUserFromRequest r = none) :
    middleware env r = Except.ok (GateDecision.RedirectLogin (loginRedirectUrl r) []) := by
  simp [middleware, hpub, hguard, hu]

/-- Same conclusion when the credential parses to a falsy value. -/
theorem mw_login_of_falsy (env : Env) (r : Request) (j : Json)
    (hpub : isPublicPath r.pathname = false)
    (hguard : (env.nodeEnv == "production" && !(strContains (r.scheme ++ ":") "https")) = false)
    (hu : getUserFromRequest r = some j) (hf : jsTruthy j = false) :
    middleware env r = Except.ok (GateDecision.RedirectLogin (loginRedirectUrl r) []) := by
  simp [middleware, hpub, hguard, hu, hf]

/-! Claim theorems. -/

/-- Claim C2. The spec states that every request resolves to one of the five
GateDecision outcomes and that no exception ever escapes the gating core.
The code contradicts this: on an admin-protected path, a credential whose
role field holds a non-string such as the number 0 reaches
user.role?.toLowerCase(), which throws an uncaught TypeError. This theorem
evaluates the embedded middleware at that failing input. -/
theorem C2_typeerror_escape :
    middleware devEnv reqRoleNum
      = Except.error "TypeError: user.role?.toLowerCase is not a function" := rfl

/-- Claim C6: every path that starts with a public prefix (including
non-literal extensions such as /loginX) classifies Public, and the
middleware answers Allow with no headers, for every deployment mode,
scheme and credential. -/
theorem C6_public_allow (env : Env) (r : Request)
    (h : isPublicPath r.pathname = true) :
    classify r.pathname = PathClass.Public ∧
      middleware env r = Except.ok (GateDecision.Allow []) := by
  constructor
  · simp [classify, h]
  · simp [middleware, h]

/-- Witness for C6 at the public-prefix extension /loginX, with a credential
present, in production over plaintext http. -/
theorem C6_public_allow_witness :
    classify "/loginX" = PathClass.Public ∧
      middleware prodEnv
        (Request.mk "http" "app.example.com" "/loginX" "" "GET"
          [("user", "\x7b\"role\":\"staff\"\x7d")] [] none)
        = Except.ok (GateDecision.Allow []) :=
  C6_public_allow prodEnv
    (Request.mk "http" "app.example.com" "/loginX" "" "GET"
      [("user", "\x7b\"role\":\"staff\"\x7d")] [] none)
    (by decide)

/-- Claim C9: the decision is a function of deployment mode, scheme, host,
pathname, search and the user cookie value alone; two requests agreeing on
those agree on the full decision, whatever their method, other cookies,
remaining headers or client address. -/
theorem C9_decision_determined (env : Env) (r1 r2 : Request)
    (hscheme : r1.scheme = r2.scheme) (hhost : r1.host = r2.host)
    (hpath : r1.pathname = r2.pathname) (hsearch : r1.search = r2.search)
    (hcookie : cookieGet r1 "user" = cookieGet r2 "user") :
    middleware env r1 = middleware env r2 := by
  unfold middleware getUserFromRequest loginRedirectUrl dashboardUrl requestOrigin
  rw [hscheme, hhost, hpath, hsearch, hcookie]

/-- Witness for C9: same mode, scheme, host, path, search and user cookie,
different method, extra cookie, extra header and client address. -/
theorem C9_decision_determined_witness :
    middleware prodEnv
      (Request.mk "https" "h.example" "/users/7" "?x=1" "POST"
        [("a", "1"), ("user", "\x7b\"role\":\"admin\"\x7d")] [("X-Other", "v")] (some "10.0.0.1"))
      = middleware prodEnv
      (Request.mk "https" "h.example" "/users/7" "?x=1" "GET"
        [("user", "\x7b\"role\":\"admin\"\x7d"), ("b", "2")] [] none) :=
  C9_decision_determined prodEnv
    (Request.mk "https" "h.example" "/users/7" "?x=1" "POST"
      [("a", "1"), ("user", "\x7b\"role\":\"admin\"\x7d")] [("X-Other", "v")] (some "10.0.0.1"))
    (Request.mk "https" "h.example" "/users/7" "?x=1" "GET"
      [("user", "\x7b\"role\":\"admin\"\x7d"), ("b", "2")] [] none)
    rfl rfl rfl rfl rfl

/-- Claim C7: a request whose user cookie value fails JSON parsing decides
exactly as the same request with no user cookie; the parse failure is
swallowed, never propagated. -/
theorem C7_malformed_as_absent (env : Env) (r1 r2 : Request) (s : String)
    (h1 : cookieGet r1 "user" = some s) (hbad : parseJson s = none)
    (h2 : cookieGet r2 "user" = none)
    (hscheme : r1.scheme = r2.scheme) (hhost : r1.host = r2.host)
    (hpath : r1.pathname = r2.pathname) (hsearch : r1.search = r2.search) :
    middleware env r1 = middleware env r2 := by
  unfold middleware getUserFromRequest loginRedirectUrl dashboardUrl requestOrigin
  simp only [h1, hbad, h2, hscheme, hhost, hpath, hsearch]

/-- Witness for C7: the unparseable value left brace against the absent
cookie, identical decisions on path /users/42. -/
theorem C7_malformed_as_absent_witness :
    middleware devEnv
      (Request.mk "https" "app.example.com" "/users/42" "" "GET" [("user", "\x7b")] [] none)
      = middleware devEnv
      (Request.mk "https" "app.example.com" "/users/42" "" "GET" [] [] none) :=
  C7_malformed_as_absent devEnv
    (Request.mk "https" "app.example.com" "/users/42" "" "GET" [("user", "\x7b")] [] none)
    (Request.mk "https" "app.example.com" "/users/42" "" "GET" [] [] none)
    "\x7b" rfl rfl rfl rfl rfl rfl rfl

/-- Claim C10: each compliance helper fails with its own fixed message
exactly when the upstream status is not 2xx, returns the JSON payload on a
2xx status, and never uses the message of the other helper. -/
theorem C10_compliance_errors (upstream : UpstreamRequest → UpstreamResponse)
    (apiUrl hotelId taskId : String) :
    (fetchDueTasks upstream apiUrl hotelId = Except.error "Failed to fetch due tasks"
      ↔ responseOk (upstream (dueTasksRequest apiUrl hotelId)) = false) ∧
    (responseOk (upstream (dueTasksRequest apiUrl hotelId)) = true →
      fetchDueTasks upstream apiUrl hotelId
        = Except.ok (upstream (dueTasksRequest apiUrl hotelId)).payload) ∧
    (acknowledgeNextMonthTask upstream apiUrl hotelId taskId
        = Except.error "Failed to acknowledge task"
      ↔ responseOk (upstream (ackTaskRequest apiUrl hotelId taskId)) = false) ∧
    (responseOk (upstream (ackTaskRequest apiUrl hotelId taskId)) = true →
      acknowledgeNextMonthTask upstream apiUrl hotelId taskId
        = Except.ok (upstream (ackTaskRequest apiUrl hotelId taskId)).payload) ∧
    fetchDueTasks upstream apiUrl hotelId ≠ Except.error "Failed to acknowledge task" ∧
    acknowledgeNextMonthTask upstream apiUrl hotelId taskId
      ≠ Except.error "Failed to fetch due tasks" := by
  unfold fetchDueTasks acknowledgeNextMonthTask
  cases hok : responseOk (upstream (dueTasksRequest apiUrl hotelId)) <;>
    cases hok2 : responseOk (upstream (ackTaskRequest apiUrl hotelId taskId)) <;>
      simp [hok, hok2]

/-- Witness for C10: a 200 upstream yields the payload for fetch, a 500
upstream yields the acknowledge failure message. -/
theorem C10_compliance_errors_witness :
    fetchDueTasks up200 "http://api.example" "h1" = Except.ok Json.null ∧
    acknowledgeNextMonthTask up500 "http://api.example" "h1" "t1"
      = Except.error "Failed to acknowledge task" := by
  constructor
  · exact (C10_compliance_errors up200 "http://api.example" "h1" "t1").2.1 (by decide)
  · exact (C10_compliance_errors up500 "http://api.example" "h1" "t1").2.2.1.mpr (by decide)

/-- Counterexample to claim C4 as stated: in production over plaintext http,
a request to the public path /login is allowed, not redirected to https;
the scheme redirect only applies to non-public paths. -/
theorem C4_counterexample :
    middleware prodEnv reqPublicHttp = Except.ok (GateDecision.Allow []) ∧
    isRedirectHttpsD (GateDecision.Allow []) = false := ⟨rfl, rfl⟩

/-- Claim C4, amended to non-public paths: in production mode every
plaintext-http request to a non-public path is redirected to the same
host, path and query under https, whatever the credential, so the scheme
check is decided before identity is evaluated. -/
theorem C4_https_redirect (r : Request)
    (hpub : isPublicPath r.pathname = false) (hscheme : r.scheme = "http") :
    middleware prodEnv r = Except.ok (GateDecision.RedirectHttps
      ("https://" ++ r.host ++ r.pathname ++ r.search) []) := by
  have hguard : (prodEnv.nodeEnv == "production"
      && !(strContains (r.scheme ++ ":") "https")) = true := by
    rw [hscheme]; decide
  simp [middleware, hpub, hguard]

/-- Witness for C4: plaintext production request to /users/42 with a valid
admin credential and a query string is still scheme-redirected. -/
theorem C4_https_redirect_witness :
    middleware prodEnv
      (Request.mk "http" "app.example.com" "/users/42" "?a=b" "GET"
        [("user", "\x7b\"role\":\"Admin\"\x7d")] [] none)
      = Except.ok (GateDecision.RedirectHttps "https://app.example.com/users/42?a=b" []) :=
  C4_https_redirect
    (Request.mk "http" "app.example.com" "/users/42" "?a=b" "GET"
      [("user", "\x7b\"role\":\"Admin\"\x7d")] [] none)
    (by decide) rfl

/-- Counterexample to claim C5 as stated: with no credential and the
non-public path /users/42, a production plaintext request is answered
RedirectHttps, not RedirectLogin; the scheme redirect precedes the
identity check. -/
theorem C5_counterexample :
    middleware prodEnv reqUsers42Http
      = Except.ok (GateDecision.RedirectHttps "https://app.example.com/users/42" []) ∧
    isRedirectLoginD (GateDecision.RedirectHttps "https://app.example.com/users/42" [])
      = false := ⟨rfl, rfl⟩

/-- Claim C5, amended with the HTTPS-guard proviso: with no user cookie and
a non-public path, when the production-plaintext redirect does not apply,
the decision is RedirectLogin to the login path carrying the original path
as the redirect query parameter. -/
theorem C5_login_redirect (env : Env) (r : Request)
    (hpub : isPublicPath r.pathname = false)
    (hcred : cookieGet r "user" = none)
    (hguard : (env.nodeEnv == "production"
      && !(strContains (r.scheme ++ ":") "https")) = false) :
    middleware env r = Except.ok (GateDecision.RedirectLogin
      (r.scheme ++ "://" ++ r.host ++ "/login?redirect=" ++ formEncode r.pathname) []) := by
  have hu : getUserFromRequest r = none := by
    unfold getUserFromRequest; rw [hcred]
  exact mw_login_of_none env r hpub hguard hu

/-- Witness for C5: path /users/42 with no credential redirects to
/login?redirect=%2Fusers%2F42. -/
theorem C5_login_redirect_witness :
    middleware devEnv reqUsers42Http
      = Except.ok (GateDecision.RedirectLogin
        "http://app.example.com/login?redirect=%2Fusers%2F42" []) :=
  C5_login_redirect devEnv reqUsers42Http (by decide) rfl (by decide)

/-- Counterexample to claim C8 as stated: the value null parses
successfully, yet on the non-public path /dashboard a production plaintext
request yields RedirectHttps, not RedirectLogin. -/
theorem C8_counterexample :
    (parseJson "null").isSome = true ∧
    middleware prodEnv reqNullCredHttp
      = Except.ok (GateDecision.RedirectHttps "https://app.example.com/dashboard" []) ∧
    isRedirectLoginD (GateDecision.RedirectHttps "https://app.example.com/dashboard" [])
      = false := ⟨rfl, rfl, rfl⟩

/-- Claim C8, amended with the HTTPS-guard proviso: a user cookie holding
null, false, 0 or the empty JSON string deserializes successfully to a
falsy value, the decision equals that of the same request with the user
cookie removed, and on a non-public path (production-plaintext redirect
not applying) it is RedirectLogin. -/
theorem C8_falsy_credential (env : Env) (r : Request) (s : String)
    (hs : cookieGet r "user" = some s)
    (hfour : s = "null" ∨ s = "false" ∨ s = "0" ∨ s = "\"\"")
    (hpub : isPublicPath r.pathname = false)
    (hguard : (env.nodeEnv == "production"
      && !(strContains (r.scheme ++ ":") "https")) = false) :
    (parseJson s).isSome = true ∧
    middleware env r = middleware env (removeUserCookie r) ∧
    middleware env r = Except.ok (GateDecision.RedirectLogin
      (r.scheme ++ "://" ++ r.host ++ "/login?redirect=" ++ formEncode r.pathname) []) := by
  have hu2 : getUserFromRequest (removeUserCookie r) = none := by
    unfold getUserFromRequest cookieGet removeUserCookie
    simp [cookiesGetLast_filter_user]
  have hr2 : middleware env (removeUserCookie r)
      = Except.ok (GateDecision.RedirectLogin (loginRedirectUrl r) []) := by
    have := mw_login_of_none env (removeUserCookie r)
      (by simpa [removeUserCookie] using hpub)
      (by simpa [removeUserCookie] using hguard) hu2
    simpa [removeUserCookie, loginRedirectUrl, requestOrigin] using this
  have main : ∀ j, parseJson s = some j → jsTruthy j = false →
      (parseJson s).isSome = true ∧
      middleware env r = middleware env (removeUserCookie r) ∧
      middleware env r = Except.ok (GateDecision.RedirectLogin
        (r.scheme ++ "://" ++ r.host ++ "/login?redirect=" ++ formEncode r.pathname) []) := by
    intro j hj hf
    have hu : getUserFromRequest r = some j := by
      unfold getUserFromRequest; simp only [hs]; exact hj
    have hr1 := mw_login_of_falsy env r j hpub hguard hu hf
    refine ⟨by rw [hj]; rfl, ?_, hr1⟩
    rw [hr1, hr2]
  rcases hfour with h | h | h | h <;> subst h
  · exact main Json.null rfl rfl
  · exact main (Json.bool false) rfl rfl
  · exact main (Json.num "0") rfl rfl
  · exact main (Json.str "") rfl rfl

/-- Witness for C8: the cookie value null on /dashboard in development
mode. -/
theorem C8_falsy_credential_witness :
    (parseJson "null").isSome = true ∧
    middleware devEnv reqNullCredHttp = middleware devEnv (removeUserCookie reqNullCredHttp) ∧
    middleware devEnv reqNullCredHttp
      = Except.ok (GateDecision.RedirectLogin
        "http://app.example.com/login?redirect=%2Fdashboard" []) :=
  C8_falsy_credential devEnv reqNullCredHttp "null" rfl (Or.inl rfl) (by decide) (by decide)

/-- Counterexample to claim C1 as stated: the admin-protected path
/admin/settings with the credential of role Admin, in production over
plaintext http, is answered RedirectHttps rather than AllowWithHeaders;
the scheme redirect precedes the role gate. -/
theorem C1_counterexample :
    middleware prodEnv reqAdminHttp
      = Except.ok (GateDecision.RedirectHttps "https://app.example.com/admin/settings" []) ∧
    isAllowWithHeadersD
      (GateDecision.RedirectHttps "https://app.example.com/admin/settings" [])
      = false := ⟨rfl, rfl⟩

/-- Claim C1, amended with the HTTPS-guard proviso: on an admin-protected
path, when the production-plaintext redirect does not apply and the user
cookie parses to a truthy principal whose role field is a string or is
absent or null, the decision is AllowWithHeaders exactly when that role
contains one of the admin roles case-insensitively as a substring, and
RedirectDefault to /dashboard otherwise. -/
theorem C1_admin_gate (env : Env) (r : Request) (j : Json)
    (hadmin : requiresAdminAccess r.pathname = true)
    (hpub : isPublicPath r.pathname = false)
    (hguard : (env.nodeEnv == "production"
      && !(strContains (r.scheme ++ ":") "https")) = false)
    (huser : getUserFromRequest r = some j)
    (htruthy : jsTruthy j = true)
    (hrole : roleFieldOk (jsGetField j "role") = true) :
    middleware env r = Except.ok
      (if principalRoleMatches j then GateDecision.AllowWithHeaders securityHeaders
       else GateDecision.RedirectDefault (r.scheme ++ "://" ++ r.host ++ "/dashboard") []) := by
  cases hf : jsGetField j "role" with
  | none =>
    simp [middleware, hpub, hguard, huser, htruthy, hadmin, hf,
      principalRoleMatches, dashboardUrl, requestOrigin]
  | some v =>
    cases v with
    | str s =>
      simp only [middleware, hpub, hguard, huser, htruthy, hadmin, hf,
        principalRoleMatches, dashboardUrl, requestOrigin]
      cases hacc : roleHasAdminAccess s <;>
        simp [middleware, hpub, hguard, huser, htruthy, hadmin, hf, hacc,
          principalRoleMatches, dashboardUrl, requestOrigin]
    | null =>
      simp [middleware, hpub, hguard, huser, htruthy, hadmin, hf,
        principalRoleMatches, dashboardUrl, requestOrigin]
    | bool b => rw [hf] at hrole; exact absurd hrole (by simp [roleFieldOk])
    | num t => rw [hf] at hrole; exact absurd hrole (by simp [roleFieldOk])
    | arr l => rw [hf] at hrole; exact absurd hrole (by simp [roleFieldOk])
    | obj l => rw [hf] at hrole; exact absurd hrole (by simp [roleFieldOk])

/-- Witness for C1: role Admin on /admin/settings passes the gate, role
staff on /users is sent to /dashboard. -/
theorem C1_admin_gate_witness :
    middleware devEnv reqAdminOk = Except.ok (GateDecision.AllowWithHeaders securityHeaders) ∧
    middleware devEnv reqUsersStaff
      = Except.ok (GateDecision.RedirectDefault "https://app.example.com/dashboard" []) := by
  constructor
  · exact C1_admin_gate devEnv reqAdminOk (Json.obj [("role", Json.str "Admin")])
      (by decide) (by decide) (by decide) rfl rfl rfl
  · exact C1_admin_gate devEnv reqUsersStaff (Json.obj [("role", Json.str "staff")])
      (by decide) (by decide) (by decide) rfl rfl rfl

/-- Counterexample to claim C3 as stated: a response that passes the gate
carries the full fixed security header set of the source, which has four
members, not five; the spec count of five splits the X-XSS-Protection
value at its semicolon. -/
theorem C3_counterexample :
    middleware devEnv reqDashboardStaff
      = Except.ok (GateDecision.AllowWithHeaders securityHeaders) ∧
    securityHeaders.length = 4 := ⟨rfl, rfl⟩

/-- Claim C3, amended to the four headers the source sets: every decision
the middleware returns carries exactly the fixed four security headers
when it is AllowWithHeaders and no headers otherwise (public Allow and all
three redirects). -/
theorem C3_headers (env : Env) (r : Request) (d : GateDecision)
    (h : middleware env r = Except.ok d) :
    decisionHeaders d =
      (if isAllowWithHeadersD d then
        [("X-Frame-Options", "DENY"), ("X-Content-Type-Options", "nosniff"),
         ("Referrer-Policy", "strict-origin-when-cross-origin"),
         ("X-XSS-Protection", "1; mode=block")]
       else []) := by
  unfold middleware at h
  repeat' split at h
  all_goals first
    | (injection h with h; subst h; rfl)
    | exact Except.noConfusion h

/-- Witness for C3: the headers of the decision on an ordinary-protected
path with a staff credential. -/
theorem C3_headers_witness :
    decisionHeaders (GateDecision.AllowWithHeaders securityHeaders) =
      [("X-Frame-Options", "DENY"), ("X-Content-Type-Options", "nosniff"),
       ("Referrer-Policy", "strict-origin-when-cross-origin"),
       ("X-XSS-Protection", "1; mode=block")] := by
  have h := C3_headers devEnv reqDashboardStaff
    (GateDecision.AllowWithHeaders securityHeaders) rfl
  simpa using h
